import Mathlib

/-!
Verification of the radio-node repository cores: the station dataset
assembler (src/unnamed/part_000, the radio service module) and the audio
session controller (src/app/components/AudioPlayer.tsx).

The assembler is embedded as a pure function over oracles describing the
external directory service: the primary query result is an
Except-value (the service may throw), the per-country supplementary query
is a function from country code and limit to an Except-value, and the
two Math.random() draws consumed when synthesizing a coordinate for the
i-th supplementary station are supplied by a stream of rational pairs.
JavaScript numbers are modelled by the JSNumber type (finite rationals,
the two infinities, and NaN) so that the source's truthiness tests
(0, NaN and undefined are falsy) and isNaN tests are reproduced exactly.
-/

/-- A JavaScript number: NaN, positive or negative infinity, or a finite
value (modelled as a rational). -/
inductive JSNumber where
  | nan : JSNumber
  | posInf : JSNumber
  | negInf : JSNumber
  | finite : ℚ → JSNumber
deriving DecidableEq, Repr

/-- Truthiness of a JavaScript number: NaN and 0 are falsy, everything
else is truthy. -/
def JSNumber.truthy : JSNumber → Bool
  | .nan => false
  | .posInf => true
  | .negInf => true
  | .finite q => decide (q ≠ 0)

/-- The isNaN test on a JavaScript number. -/
def JSNumber.isNaNum : JSNumber → Bool
  | .nan => true
  | _ => false

/-- Truthiness of an optional JavaScript number field: undefined is falsy. -/
def jsTruthy : Option JSNumber → Bool
  | none => false
  | some n => n.truthy

/-- The isNaN test on an optional field: isNaN(undefined) is true, since
undefined coerces to NaN. -/
def jsIsNaN : Option JSNumber → Bool
  | none => true
  | some n => n.isNaNum

/-- The RadioStation record of the radio service module.  geoLat and
geoLong are optional fields carrying JavaScript numbers; language is a
string array or a single string in the source's type. -/
structure RadioStation where
  id : String
  name : String
  url : String
  favicon : String
  countryCode : String
  country : String
  state : String
  language : List String ⊕ String
  codec : String
  bitrate : JSNumber
  votes : JSNumber
  geoLat : Option JSNumber
  geoLong : Option JSNumber
deriving DecidableEq, Repr

/-- The primary-query filter of getRadioStationsWithGeoData (lines 85-91):
station.geoLat and station.geoLong and not isNaN(station.geoLat) and not
isNaN(station.geoLong), with JavaScript truthiness. -/
def hasValidGeo (station : RadioStation) : Bool :=
  jsTruthy station.geoLat && jsTruthy station.geoLong &&
    !jsIsNaN station.geoLat && !jsIsNaN station.geoLong

/-- The country key used by the coverage reduce (line 95):
station.countryCode or the sentinel "unknown" when the code is falsy
(the empty string). -/
def countryKey (station : RadioStation) : String :=
  if station.countryCode = "" then "unknown" else station.countryCode

/-- The coverage map of getRadioStationsWithGeoData (lines 94-98), read
extensionally: the count of stations whose country key equals the given
code (0 for a code absent from the map). -/
def countryCounts (stations : List RadioStation) (code : String) : Nat :=
  (stations.filter (fun s => countryKey s = code)).length

/-- An entry of the IMPORTANT_COUNTRIES list. -/
structure Country where
  name : String
  code : String
deriving DecidableEq, Repr

/-- The fixed priority list of countries (lines 39-48). -/
def IMPORTANT_COUNTRIES : List Country :=
  [⟨"India", "IN"⟩, ⟨"United States", "US"⟩, ⟨"United Kingdom", "GB"⟩,
   ⟨"Japan", "JP"⟩, ⟨"China", "CN"⟩, ⟨"Australia", "AU"⟩,
   ⟨"Brazil", "BR"⟩, ⟨"Russia", "RU"⟩]

/-- The backfill selection (lines 101-102): priority countries whose
coverage count is falsy (absent or 0) or below 5. -/
def queriedCountries (validGeoStations : List RadioStation) : List Country :=
  IMPORTANT_COUNTRIES.filter fun country =>
    countryCounts validGeoStations country.code == 0 ||
      countryCounts validGeoStations country.code < 5

/-- A bounding rectangle from the COUNTRY_BOUNDARIES table. -/
structure CountryRect where
  latMin : ℚ
  latMax : ℚ
  longMin : ℚ
  longMax : ℚ
deriving DecidableEq, Repr

/-- The COUNTRY_BOUNDARIES table (lines 52-61). -/
def COUNTRY_BOUNDARIES (code : String) : Option CountryRect :=
  if code = "IN" then some ⟨8, 35, 68, 97⟩
  else if code = "US" then some ⟨24, 49, -125, -66⟩
  else if code = "GB" then some ⟨49, 59, -8, 2⟩
  else if code = "JP" then some ⟨30, 46, 129, 146⟩
  else if code = "CN" then some ⟨18, 54, 73, 135⟩
  else if code = "AU" then some ⟨-43, -10, 113, 154⟩
  else if code = "BR" then some ⟨-33, 5, -74, -34⟩
  else if code = "RU" then some ⟨41, 82, 19, 180⟩
  else none

/-- Rounding to 6 decimal places, modelling toFixed(6) followed by
parseFloat (lines 71-72). -/
def round6 (q : ℚ) : ℚ :=
  (round (q * 1000000) : ℤ) / 1000000

/-- getRandomCoordinateForCountry (lines 63-74).  r1 and r2 are the two
Math.random() draws, each in the interval from 0 inclusive to 1
exclusive. -/
def getRandomCoordinateForCountry (countryCode : String) (r1 r2 : ℚ) :
    Option (ℚ × ℚ) :=
  match COUNTRY_BOUNDARIES countryCode with
  | none => none
  | some bounds =>
      some (round6 (bounds.latMin + r1 * (bounds.latMax - bounds.latMin)),
            round6 (bounds.longMin + r2 * (bounds.longMax - bounds.longMin)))

/-- The per-station body of the coordinate-assignment map (lines 109-117):
when the station lacks truthy non-NaN coordinates, look up random
coordinates for its country and spread them into a copy of the record. -/
def assignCoordsOne (r1 r2 : ℚ) (station : RadioStation) : RadioStation :=
  if !jsTruthy station.geoLat || !jsTruthy station.geoLong ||
      jsIsNaN station.geoLat || jsIsNaN station.geoLong then
    match getRandomCoordinateForCountry station.countryCode r1 r2 with
    | some c =>
        { station with geoLat := some (.finite c.1),
                       geoLong := some (.finite c.2) }
    | none => station
  else station

/-- The coordinate-assignment map over the supplementary stations
(lines 109-117); rand i supplies the two Math.random() draws consumed for
the i-th station in the list. -/
def assignCoords (rand : Nat → ℚ × ℚ) (stations : List RadioStation) :
    List RadioStation :=
  stations.enum.map fun p => assignCoordsOne (rand p.1).1 (rand p.1).2 p.2

/-- The body of the merge loop of getRadioStationsWithGeoData
(lines 121-125): push the supplementary station onto the accumulated list
when its id is not already present and its coordinates are truthy. -/
def mergePush (allStations : List RadioStation) (station : RadioStation) :
    List RadioStation :=
  if !(allStations.any fun s => s.id == station.id) &&
      jsTruthy station.geoLat && jsTruthy station.geoLong then
    allStations ++ [station]
  else allStations

/-- The merge loop of getRadioStationsWithGeoData (lines 119-125): start
from the valid primary stations and push each supplementary station whose
id is not already present and whose coordinates are truthy. -/
def mergeStations (validGeoStations additionalStations : List RadioStation) :
    List RadioStation :=
  additionalStations.foldl mergePush validGeoStations

/-- getRadioStationsForCountry (lines 24-36): its own try/catch turns a
service failure into an empty list. -/
def getRadioStationsForCountry
    (svc : String → Nat → Except Unit (List RadioStation))
    (countryCode : String) (limit : Nat) : List RadioStation :=
  match svc countryCode limit with
  | .ok stations => stations
  | .error _ => []

/-- The body of the try block of getRadioStationsWithGeoData
(lines 77-127): primary fetch, validity filter, coverage-driven backfill,
coordinate synthesis, and merge.  A primary-query failure propagates as
an error out of the body (to be caught by the enclosing catch). -/
def assembleBody (primary : Except Unit (List RadioStation))
    (svc : String → Nat → Except Unit (List RadioStation))
    (rand : Nat → ℚ × ℚ) : Except Unit (List RadioStation) :=
  match primary with
  | .error e => .error e
  | .ok stationsWithGeo =>
      let validGeoStations := stationsWithGeo.filter hasValidGeo
      let additionalStationsArrays :=
        (queriedCountries validGeoStations).map fun country =>
          getRadioStationsForCountry svc country.code 20
      let additionalStations :=
        assignCoords rand additionalStationsArrays.flatten
      .ok (mergeStations validGeoStations additionalStations)

/-- getRadioStationsWithGeoData (lines 76-132): the try/catch wrapper
around the assembly body; on any failure it logs and returns the empty
list, so the caller always receives an ok value. -/
def getRadioStationsWithGeoData (primary : Except Unit (List RadioStation))
    (svc : String → Nat → Except Unit (List RadioStation))
    (rand : Nat → ℚ × ℚ) : Except Unit (List RadioStation) :=
  match assembleBody primary svc rand with
  | .ok allStations => .ok allStations
  | .error _ => .ok []

/-- A directory service whose every per-country query fails. -/
def svcErr : String → Nat → Except Unit (List RadioStation) :=
  fun _ _ => .error ()

/-- A deterministic stream of Math.random() pairs, used by concrete runs. -/
def rand0 : Nat → ℚ × ℚ := fun _ => (0, 0)

/-- A station template with empty descriptive fields. -/
def mkStation (id countryCode : String) (geoLat geoLong : Option JSNumber) :
    RadioStation :=
  { id := id, name := "", url := "", favicon := "",
    countryCode := countryCode, country := "", state := "",
    language := Sum.inl [], codec := "", bitrate := .finite 0,
    votes := .finite 0, geoLat := geoLat, geoLong := geoLong }

/-- The kinds of engine lifecycle callbacks the AudioPlayer registers on
its Howl instance (AudioPlayer.tsx lines 35-56). -/
inductive CbKind where
  | onplay | onload | onloaderror | onplayerror | onstop | onend
deriving DecidableEq, Repr

/-- An observable action performed on the streaming audio engine.  Each
engine handle is identified by a generation number assigned at creation. -/
inductive EngineAction where
  | create (gen : Nat) (url : String) (vol : ℚ)
  | unload (gen : Nat)
  | play (gen : Nat)
  | pause (gen : Nat)
  | setVolume (gen : Nat) (v : ℚ)
deriving DecidableEq, Repr

/-- A live Howl handle: its identity, the source url it was created with,
and its current volume. -/
structure Handle where
  gen : Nat
  url : String
  volume : ℚ
deriving DecidableEq, Repr

/-- The state of the AudioPlayer component: the station prop, the React
state hooks (isPlaying, volume, isLoading, error), the soundRef slot, a
counter supplying fresh handle identities, and the trace of engine
actions performed so far. -/
structure PlayerState where
  station : Option RadioStation
  isPlaying : Bool
  volume : ℚ
  isLoading : Bool
  error : Option String
  sound : Option Handle
  nextGen : Nat
  trace : List EngineAction
deriving DecidableEq, Repr

/-- The initial state of a freshly mounted AudioPlayer with no station
selected: volume 0.75, nothing playing, no handle (lines 10-14). -/
def initState : PlayerState :=
  { station := none, isPlaying := false, volume := 3 / 4,
    isLoading := false, error := none, sound := none, nextGen := 0,
    trace := [] }

/-- An external event the component reacts to: a change of the station
prop, unmount, a volume-slider change, the play/pause button, or an
engine callback carrying the generation of the handle it was registered
on. -/
inductive Event where
  | select (s : Option RadioStation)
  | unmount
  | setVol (v : ℚ)
  | toggle
  | cb (gen : Nat) (k : CbKind)
deriving DecidableEq, Repr

/-- The body of the station effect (lines 17-61), run when the
station?.url dependency changed: unload any previous handle, reset error
and isPlaying, and when the new station has a truthy url create a new
Howl at the current volume and start playback. -/
def runStationEffect (s : PlayerState) (newStation : Option RadioStation) :
    PlayerState :=
  let s1 :=
    match s.sound with
    | some h =>
        { s with sound := none, trace := s.trace ++ [EngineAction.unload h.gen] }
    | none => s
  let s2 := { s1 with error := none, isPlaying := false,
                      station := newStation }
  match newStation with
  | some st =>
      if st.url ≠ "" then
        { s2 with isLoading := true,
                  sound := some ⟨s2.nextGen, st.url, s2.volume⟩,
                  nextGen := s2.nextGen + 1,
                  trace := s2.trace ++
                    [EngineAction.create s2.nextGen st.url s2.volume, EngineAction.play s2.nextGen] }
      else s2
  | none => s2

/-- The handler bodies registered on the Howl instance (lines 35-56). -/
def applyCb (s : PlayerState) (k : CbKind) : PlayerState :=
  match k with
  | .onplay => { s with isPlaying := true, isLoading := false }
  | .onload => { s with isLoading := false }
  | .onloaderror =>
      { s with isLoading := false, error := some "Failed to load station" }
  | .onplayerror =>
      { s with isPlaying := false, isLoading := false,
               error := some "Failed to play station" }
  | .onstop => { s with isPlaying := false }
  | .onend => { s with isPlaying := false }

/-- One step of the AudioPlayer.  A select event re-runs the station
effect only when the station?.url dependency changed (line 70); unmount
runs the cleanup (lines 64-69); setVol updates the volume state and the
volume effect applies it to the current handle (lines 73-77, 91-94);
toggle is togglePlayPause (lines 79-89).  A callback event is delivered
to its handle: the engine fires handlers only for a handle that has not
been unloaded (unload releases the sound and removes its listeners, per
the engine interface), so an event whose generation is not the current
handle's is dropped. -/
def step (s : PlayerState) (e : Event) : PlayerState :=
  match e with
  | .select newStation =>
      if (newStation.map fun st => st.url) = (s.station.map fun st => st.url)
      then { s with station := newStation }
      else runStationEffect s newStation
  | .unmount =>
      match s.sound with
      | some h =>
          { s with sound := none, trace := s.trace ++ [EngineAction.unload h.gen] }
      | none => s
  | .setVol v =>
      let s1 := { s with volume := v }
      match s1.sound with
      | some h =>
          { s1 with sound := some { h with volume := v },
                    trace := s1.trace ++ [EngineAction.setVolume h.gen v] }
      | none => s1
  | .toggle =>
      match s.sound with
      | none => s
      | some h =>
          if s.isPlaying then
            { s with isPlaying := false, trace := s.trace ++ [EngineAction.pause h.gen] }
          else
            { s with isPlaying := true, trace := s.trace ++ [EngineAction.play h.gen] }
  | .cb g k =>
      match s.sound with
      | some h => if h.gen = g then applyCb s k else s
      | none => s

/-- Folding one engine action into the list of currently live handle
generations: create adds a generation, unload removes it. -/
def liveStep (acc : List Nat) (a : EngineAction) : List Nat :=
  match a with
  | .create g _ _ => acc ++ [g]
  | .unload g => acc.filter fun x => x ≠ g
  | _ => acc

/-- The generations of engine handles still live after a trace of engine
actions. -/
def liveHandles (t : List EngineAction) : List Nat :=
  t.foldl liveStep []

/-- The session invariant: the live handles of the trace are exactly the
generation held in the soundRef slot, and a held handle was created for
the currently selected station's (nonempty) url. -/
def SessionInv (s : PlayerState) : Prop :=
  liveHandles s.trace = (s.sound.map Handle.gen).toList ∧
    ∀ h, s.sound = some h →
      (s.station.map fun st => st.url) = some h.url ∧ h.url ≠ ""

/-- A station used in concrete runs of the player model. -/
def stA : RadioStation := { mkStation "a" "US" none none with url := "stream" }

/-- A station distinct from stA but sharing its stream url. -/
def stB : RadioStation := { mkStation "b" "US" none none with url := "stream" }

/-- A station with a stream url different from stA's. -/
def stC : RadioStation := { mkStation "c" "US" none none with url := "stream2" }


/-- A directory service equal to svc except that the query for country c
fails. -/
def failAt (svc : String → Nat → Except Unit (List RadioStation))
    (c : String) : String → Nat → Except Unit (List RadioStation) :=
  fun code limit => if code = c then .error () else svc code limit

/-- A primary-query station whose latitude is far outside the valid
range. -/
def badStation : RadioStation :=
  mkStation "x" "XX" (some (.finite 1000)) (some (.finite 50))

/-- A primary-query station with ordinary valid coordinates. -/
def goodStation : RadioStation :=
  mkStation "g" "US" (some (.finite 10)) (some (.finite 20))

/-- A primary-query station on the equator: latitude exactly 0. -/
def zeroLatStation : RadioStation :=
  mkStation "z" "FR" (some (.finite 0)) (some (.finite 10))

/-- A station with id dup, first of a duplicated pair. -/
def dupA : RadioStation :=
  { mkStation "dup" "US" (some (.finite 10)) (some (.finite 20)) with
    name := "A" }

/-- A station with id dup, second of a duplicated pair, distinct from
dupA. -/
def dupB : RadioStation :=
  { mkStation "dup" "US" (some (.finite 30)) (some (.finite 40)) with
    name := "B" }

lemma truthy_iff (o : Option JSNumber) :
    jsTruthy o = true ↔
      o ≠ none ∧ jsIsNaN o = false ∧ o ≠ some (JSNumber.finite 0) := by
  cases o with
  | none => simp [jsTruthy, jsIsNaN]
  | some n =>
    cases n with
    | nan => simp [jsTruthy, jsIsNaN, JSNumber.truthy, JSNumber.isNaNum]
    | posInf => simp [jsTruthy, jsIsNaN, JSNumber.truthy, JSNumber.isNaNum]
    | negInf => simp [jsTruthy, jsIsNaN, JSNumber.truthy, JSNumber.isNaNum]
    | finite q =>
      by_cases hq : q = 0 <;>
        simp [jsTruthy, jsIsNaN, JSNumber.truthy, JSNumber.isNaNum, hq]

lemma hasValidGeo_truthy {station : RadioStation}
    (h : hasValidGeo station = true) :
    jsTruthy station.geoLat = true ∧ jsTruthy station.geoLong = true := by
  simp only [hasValidGeo, Bool.and_eq_true] at h
  exact ⟨h.1.1.1, h.1.1.2⟩

lemma mergeStations_cons (valid : List RadioStation) (a : RadioStation)
    (rest : List RadioStation) :
    mergeStations valid (a :: rest) = mergeStations (mergePush valid a) rest :=
  rfl

lemma mem_mergeStations (adds : List RadioStation) :
    ∀ (valid : List RadioStation) (st : RadioStation),
      st ∈ mergeStations valid adds →
      st ∈ valid ∨
        (jsTruthy st.geoLat = true ∧ jsTruthy st.geoLong = true) := by
  induction adds with
  | nil => intro valid st h; exact Or.inl h
  | cons a rest ih =>
    intro valid st h
    rw [mergeStations_cons] at h
    rcases ih _ st h with hmem | htr
    · unfold mergePush at hmem
      by_cases hc : (!(valid.any fun s => s.id == a.id) &&
          jsTruthy a.geoLat && jsTruthy a.geoLong) = true
      · rw [if_pos hc] at hmem
        rcases List.mem_append.mp hmem with hv | ha
        · exact Or.inl hv
        · simp only [Bool.and_eq_true] at hc
          rcases List.mem_singleton.mp ha with rfl
          exact Or.inr ⟨hc.1.2, hc.2⟩
      · rw [if_neg hc] at hmem
        exact Or.inl hmem
    · exact Or.inr htr

lemma nodup_mergeStations (adds : List RadioStation) :
    ∀ valid : List RadioStation,
      (valid.map RadioStation.id).Nodup →
      ((mergeStations valid adds).map RadioStation.id).Nodup := by
  induction adds with
  | nil => intro valid h; exact h
  | cons a rest ih =>
    intro valid h
    rw [mergeStations_cons]
    apply ih
    unfold mergePush
    by_cases hc : (!(valid.any fun s => s.id == a.id) &&
        jsTruthy a.geoLat && jsTruthy a.geoLong) = true
    · rw [if_pos hc]
      simp only [Bool.and_eq_true, Bool.not_eq_true'] at hc
      have hnot : a.id ∉ valid.map RadioStation.id := by
        intro hmem
        rcases List.mem_map.mp hmem with ⟨s, hs, hid⟩
        have := List.any_eq_false.mp hc.1.1 s hs
        simp [hid] at this
      rw [List.map_append]
      rw [List.nodup_append]
      refine ⟨h, List.nodup_singleton _, ?_⟩
      intro x hx
      simp only [List.map_cons, List.map_nil, List.mem_singleton]
      intro hxa
      subst hxa
      exact hnot hx
    · rw [if_neg hc]; exact h

lemma getRadioStationsWithGeoData_ok (raw : List RadioStation)
    (svc : String → Nat → Except Unit (List RadioStation))
    (rand : Nat → ℚ × ℚ) :
    getRadioStationsWithGeoData (.ok raw) svc rand =
      .ok (mergeStations (raw.filter hasValidGeo)
        (assignCoords rand
          (((queriedCountries (raw.filter hasValidGeo)).map fun country =>
            getRadioStationsForCountry svc country.code 20).flatten))) :=
  rfl

/-- C1 counterexample: the assembler applies no range check, so a
primary-query station whose latitude is 1000 — far outside [-90, 90] —
is retained in the output. -/
theorem out_of_range_latitude_retained :
    getRadioStationsWithGeoData (.ok [badStation]) svcErr rand0 =
        .ok [badStation] ∧
      badStation.geoLat = some (JSNumber.finite 1000) ∧
      ¬ ((1000 : ℚ) ≤ 90) :=
  ⟨rfl, rfl, by norm_num⟩

/-- C1 (amended): every station in the sequence returned by
getRadioStationsWithGeoData has both geoLat and geoLong present, not NaN,
and nonzero; the code enforces neither the ranges [-90, 90] and
[-180, 180] nor finiteness. -/
theorem assembled_coords_present :
    ∀ (primary : Except Unit (List RadioStation))
      (svc : String → Nat → Except Unit (List RadioStation))
      (rand : Nat → ℚ × ℚ) (l : List RadioStation),
      getRadioStationsWithGeoData primary svc rand = .ok l →
      ∀ st ∈ l,
        (st.geoLat ≠ none ∧ jsIsNaN st.geoLat = false ∧
            st.geoLat ≠ some (JSNumber.finite 0)) ∧
          (st.geoLong ≠ none ∧ jsIsNaN st.geoLong = false ∧
            st.geoLong ≠ some (JSNumber.finite 0)) := by
  intro primary svc rand l hok st hst
  cases primary with
  | error e =>
    cases e
    have : l = [] := by
      have h := hok.symm.trans
        (show getRadioStationsWithGeoData (.error ()) svc rand = .ok [] from rfl)
      exact Except.ok.inj h
    subst this
    simp at hst
  | ok raw =>
    rw [getRadioStationsWithGeoData_ok] at hok
    have hl := Except.ok.inj hok
    subst hl
    have htr : jsTruthy st.geoLat = true ∧ jsTruthy st.geoLong = true := by
      rcases mem_mergeStations _ _ _ hst with hv | ht
      · exact hasValidGeo_truthy (List.of_mem_filter hv)
      · exact ht
    exact ⟨(truthy_iff _).mp htr.1, (truthy_iff _).mp htr.2⟩

/-- C1 witness: a concrete run of the assembler producing goodStation,
whose coordinates are present, not NaN, and nonzero. -/
theorem assembled_coords_present_witness :
    (goodStation.geoLat ≠ none ∧ jsIsNaN goodStation.geoLat = false ∧
        goodStation.geoLat ≠ some (JSNumber.finite 0)) ∧
      (goodStation.geoLong ≠ none ∧ jsIsNaN goodStation.geoLong = false ∧
        goodStation.geoLong ≠ some (JSNumber.finite 0)) :=
  assembled_coords_present (.ok [goodStation]) svcErr rand0 [goodStation]
    rfl goodStation (by simp)

/-- C2 counterexample: two distinct primary-query stations sharing the id
dup are both retained, so output identifiers are not pairwise distinct;
the dedup guards only the supplementary additions. -/
theorem duplicate_primary_ids_retained :
    getRadioStationsWithGeoData (.ok [dupA, dupB]) svcErr rand0 =
        .ok [dupA, dupB] ∧
      dupA.id = dupB.id ∧ dupA ≠ dupB ∧
      ¬ (([dupA, dupB].map RadioStation.id).Nodup) :=
  ⟨rfl, rfl, by decide, by decide⟩

/-- C2 (amended): every supplementary station added during the merge has
an id distinct from all already-merged ids; hence whenever the valid
primary records have pairwise-distinct ids, the whole output has
pairwise-distinct ids. -/
theorem assembled_ids_nodup :
    ∀ (raw : List RadioStation)
      (svc : String → Nat → Except Unit (List RadioStation))
      (rand : Nat → ℚ × ℚ) (l : List RadioStation),
      ((raw.filter hasValidGeo).map RadioStation.id).Nodup →
      getRadioStationsWithGeoData (.ok raw) svc rand = .ok l →
      (l.map RadioStation.id).Nodup := by
  intro raw svc rand l hnd hok
  rw [getRadioStationsWithGeoData_ok] at hok
  have hl := Except.ok.inj hok
  subst hl
  exact nodup_mergeStations _ _ hnd

/-- C2 witness: a concrete run with a single valid primary station. -/
theorem assembled_ids_nodup_witness :
    (([goodStation].filter hasValidGeo).map RadioStation.id).Nodup ∧
      ([goodStation].map RadioStation.id).Nodup :=
  ⟨by decide,
   assembled_ids_nodup [goodStation] svcErr rand0 [goodStation] (by decide)
     rfl⟩

/-- C4 counterexample: a station on the equator (latitude exactly 0,
longitude 10, both finite numbers, neither missing nor NaN) is discarded
by the primary filter, because 0 is falsy in the truthiness test; the
assembler returns the empty sequence on such an input. -/
theorem zero_latitude_discarded :
    hasValidGeo zeroLatStation = false ∧
      zeroLatStation.geoLat = some (JSNumber.finite 0) ∧
      jsIsNaN zeroLatStation.geoLat = false ∧
      zeroLatStation.geoLat ≠ none ∧
      getRadioStationsWithGeoData (.ok [zeroLatStation]) svcErr rand0 =
        .ok [] :=
  ⟨by decide, rfl, by decide, by decide, rfl⟩

/-- C4 (amended): a primary-query entry is retained if and only if its
latitude and longitude are both present, not NaN, and nonzero — that is,
the filter also discards entries whose latitude or longitude equals the
valid coordinate value 0. -/
theorem filter_characterization :
    ∀ station : RadioStation,
      hasValidGeo station = true ↔
        ((station.geoLat ≠ none ∧ jsIsNaN station.geoLat = false ∧
            station.geoLat ≠ some (JSNumber.finite 0)) ∧
          (station.geoLong ≠ none ∧ jsIsNaN station.geoLong = false ∧
            station.geoLong ≠ some (JSNumber.finite 0))) := by
  intro station
  constructor
  · intro h
    have htr := hasValidGeo_truthy h
    exact ⟨(truthy_iff _).mp htr.1, (truthy_iff _).mp htr.2⟩
  · rintro ⟨ha, hb⟩
    have h1 := (truthy_iff _).mpr ha
    have h2 := (truthy_iff _).mpr hb
    simp only [hasValidGeo, Bool.and_eq_true, Bool.not_eq_true']
    exact ⟨⟨⟨h1, h2⟩, ha.2.1⟩, hb.2.1⟩

/-- C4 witness: goodStation satisfies the characterization and passes the
filter. -/
theorem filter_characterization_witness :
    hasValidGeo goodStation = true :=
  (filter_characterization goodStation).mpr
    ⟨⟨by decide, by decide, by decide⟩, ⟨by decide, by decide, by decide⟩⟩

/-- C5: a priority country receives a supplementary query exactly when
its coverage count of valid primary records is below 5 (an absent count
is 0), and only members of the fixed priority list are ever queried. -/
theorem backfill_threshold :
    ∀ (validGeoStations : List RadioStation) (c : Country),
      c ∈ queriedCountries validGeoStations ↔
        c ∈ IMPORTANT_COUNTRIES ∧
          countryCounts validGeoStations c.code < 5 := by
  intro valid c
  unfold queriedCountries
  rw [List.mem_filter]
  constructor
  · rintro ⟨h1, h2⟩
    refine ⟨h1, ?_⟩
    simp only [Bool.or_eq_true, beq_iff_eq, decide_eq_true_eq] at h2
    omega
  · rintro ⟨h1, h2⟩
    refine ⟨h1, ?_⟩
    simp only [Bool.or_eq_true, beq_iff_eq, decide_eq_true_eq]
    omega

/-- C5 witness: with no valid primary records at all, the priority
country India is queried. -/
theorem backfill_threshold_witness :
    (⟨"India", "IN"⟩ : Country) ∈ queriedCountries [] :=
  (backfill_threshold [] ⟨"India", "IN"⟩).mpr ⟨by decide, by decide⟩

/-- C7: the assembler never raises — it returns an ok sequence for every
primary-query outcome, returning the empty sequence when the primary
query throws; a failed supplementary query contributes exactly zero
stations, and failing one country's query leaves every other country's
contribution unchanged. -/
theorem assembler_never_raises :
    (∀ (primary : Except Unit (List RadioStation))
        (svc : String → Nat → Except Unit (List RadioStation))
        (rand : Nat → ℚ × ℚ), ∃ l,
        getRadioStationsWithGeoData primary svc rand = .ok l) ∧
      (∀ (svc : String → Nat → Except Unit (List RadioStation))
        (rand : Nat → ℚ × ℚ),
        getRadioStationsWithGeoData (.error ()) svc rand = .ok []) ∧
      (∀ (svc : String → Nat → Except Unit (List RadioStation)) code limit,
        svc code limit = .error () →
        getRadioStationsForCountry svc code limit = []) ∧
      (∀ (valid : List RadioStation)
        (svc : String → Nat → Except Unit (List RadioStation)) (c : String),
        ((queriedCountries valid).map fun country =>
            getRadioStationsForCountry (failAt svc c) country.code 20) =
          (queriedCountries valid).map fun country =>
            if country.code = c then []
            else getRadioStationsForCountry svc country.code 20) := by
  refine ⟨?_, ?_, ?_, ?_⟩
  · intro primary svc rand
    cases primary with
    | error e => cases e; exact ⟨[], rfl⟩
    | ok raw => exact ⟨_, rfl⟩
  · intro svc rand; rfl
  · intro svc code limit h
    unfold getRadioStationsForCountry
    rw [h]
  · intro valid svc c
    apply List.map_congr_left
    intro country _
    unfold getRadioStationsForCountry failAt
    by_cases hc : country.code = c
    · rw [if_pos hc, if_pos hc]
    · rw [if_neg hc, if_neg hc]

/-- C7 witness: a service whose India query fails contributes zero
stations for India. -/
theorem assembler_never_raises_witness :
    svcErr "IN" 20 = Except.error () ∧
      getRadioStationsForCountry svcErr "IN" 20 = [] :=
  ⟨rfl, assembler_never_raises.2.2.1 svcErr "IN" 20 rfl⟩

lemma round6_mem {m k : ℤ} {x : ℚ} (h1 : (m : ℚ) ≤ x * 1000000)
    (h2 : x * 1000000 < (k : ℚ)) :
    (m : ℚ) / 1000000 ≤ round6 x ∧ round6 x ≤ (k : ℚ) / 1000000 := by
  unfold round6
  have hlow : (m : ℚ) ≤ (round (x * 1000000) : ℤ) := by
    have hr := sub_half_lt_round (x * 1000000)
    have hgt : ((m : ℚ) - 1) < ((round (x * 1000000) : ℤ) : ℚ) := by
      linarith
    have hgt2 : (m - 1 : ℤ) < round (x * 1000000) := by exact_mod_cast hgt
    have hle : m ≤ round (x * 1000000) := by omega
    exact_mod_cast hle
  have hhigh : ((round (x * 1000000) : ℤ) : ℚ) ≤ (k : ℚ) := by
    have hr := round_le_add_half (x * 1000000)
    have hlt : ((round (x * 1000000) : ℤ) : ℚ) < (k : ℚ) + 1 := by linarith
    have hlt2 : round (x * 1000000) < k + 1 := by exact_mod_cast hlt
    have hle : round (x * 1000000) ≤ k := by omega
    exact_mod_cast hle
  constructor
  · linarith
  · linarith

/-- C6: for country code JP the synthesized coordinate is the affine image
of the two independent uniform draws, rounded to 6 decimal places, and
lies within lat in [30, 46] and long in [129, 146]; a country code with
no bounds entry yields no synthesized coordinate, the station is left
unchanged (so still without coordinates), and any station in the merged
output that is not a valid primary record has truthy coordinates — a
coordinate-less supplementary station is excluded. -/
theorem coordinate_synthesis_bounds :
    (∀ r1 r2 : ℚ, 0 ≤ r1 → r1 < 1 → 0 ≤ r2 → r2 < 1 →
      getRandomCoordinateForCountry "JP" r1 r2 =
          some (round6 (30 + r1 * (46 - 30)),
            round6 (129 + r2 * (146 - 129))) ∧
        ∀ la lo, getRandomCoordinateForCountry "JP" r1 r2 = some (la, lo) →
          (30 ≤ la ∧ la ≤ 46) ∧ (129 ≤ lo ∧ lo ≤ 146)) ∧
      (∀ (code : String) (r1 r2 : ℚ), COUNTRY_BOUNDARIES code = none →
        getRandomCoordinateForCountry code r1 r2 = none) ∧
      (∀ (r1 r2 : ℚ) (station : RadioStation),
        COUNTRY_BOUNDARIES station.countryCode = none →
        assignCoordsOne r1 r2 station = station) ∧
      (∀ (valid adds : List RadioStation) (station : RadioStation),
        station ∈ mergeStations valid adds →
        station ∈ valid ∨
          (jsTruthy station.geoLat = true ∧
            jsTruthy station.geoLong = true)) := by
  refine ⟨?_, ?_, ?_, ?_⟩
  · intro r1 r2 hr10 hr11 hr20 hr21
    refine ⟨rfl, ?_⟩
    intro la lo heq
    have heq2 : la = round6 (30 + r1 * (46 - 30)) ∧
        lo = round6 (129 + r2 * (146 - 129)) := by
      have h := Option.some.inj heq
      exact ⟨(congrArg Prod.fst h).symm, (congrArg Prod.snd h).symm⟩
    obtain ⟨hla, hlo⟩ := heq2
    subst hla hlo
    constructor
    · have hb := round6_mem (m := 30000000) (k := 46000000)
        (x := 30 + r1 * (46 - 30)) (by push_cast; linarith)
        (by push_cast; linarith)
      constructor
      · calc (30 : ℚ) = ((30000000 : ℤ) : ℚ) / 1000000 := by norm_num
          _ ≤ _ := hb.1
      · calc round6 (30 + r1 * (46 - 30)) ≤
            ((46000000 : ℤ) : ℚ) / 1000000 := hb.2
          _ = 46 := by norm_num
    · have hb := round6_mem (m := 129000000) (k := 146000000)
        (x := 129 + r2 * (146 - 129)) (by push_cast; linarith)
        (by push_cast; linarith)
      constructor
      · calc (129 : ℚ) = ((129000000 : ℤ) : ℚ) / 1000000 := by norm_num
          _ ≤ _ := hb.1
      · calc round6 (129 + r2 * (146 - 129)) ≤
            ((146000000 : ℤ) : ℚ) / 1000000 := hb.2
          _ = 146 := by norm_num
  · intro code r1 r2 h
    unfold getRandomCoordinateForCountry
    rw [h]
  · intro r1 r2 station h
    unfold assignCoordsOne
    have hnone : getRandomCoordinateForCountry station.countryCode r1 r2 =
        none := by
      unfold getRandomCoordinateForCountry
      rw [h]
    rw [hnone]
    split <;> rfl
  · exact fun valid adds station h => mem_mergeStations adds valid station h

/-- C6 witness: the draws 0 and one half produce a JP coordinate inside
the bounding box. -/
theorem coordinate_synthesis_bounds_witness :
    (30 ≤ round6 (30 + (0 : ℚ) * (46 - 30)) ∧
        round6 (30 + (0 : ℚ) * (46 - 30)) ≤ 46) ∧
      (129 ≤ round6 (129 + (1 / 2 : ℚ) * (146 - 129)) ∧
        round6 (129 + (1 / 2 : ℚ) * (146 - 129)) ≤ 146) := by
  have h := coordinate_synthesis_bounds.1 0 (1 / 2) (by norm_num)
    (by norm_num) (by norm_num) (by norm_num)
  exact h.2 _ _ h.1

/-- C10: selecting a station whose stream url equals the current
selection's url changes only the reported station: the effect dependency
station?.url is unchanged, so the engine handle, playback state, loading
flag and error are all left as they were. -/
theorem same_url_no_effect :
    ∀ (s : PlayerState) (B : RadioStation),
      some B.url = (s.station.map fun st => st.url) →
      step s (.select (some B)) = { s with station := some B } := by
  intro s B hurl
  show (if (some B.url) = (s.station.map fun st => st.url)
      then { s with station := some B }
      else runStationEffect s (some B)) = { s with station := some B }
  rw [if_pos hurl]

/-- C10 witness: switching from stA to the distinct station stB, which
shares stA's stream url, only updates the station prop. -/
theorem same_url_no_effect_witness :
    step (step initState (.select (some stA))) (.select (some stB)) =
      { step initState (.select (some stA)) with station := some stB } :=
  same_url_no_effect _ stB (by decide)

/-- C8: an engine callback whose generation is not the current handle's —
in particular any callback of a handle already unloaded when a newer
station was selected — leaves the controller state completely unchanged:
the released handle's listeners are gone, so the event is dropped. -/
theorem stale_callback_ignored :
    ∀ (s : PlayerState) (g : Nat) (k : CbKind),
      s.sound.map Handle.gen ≠ some g → step s (.cb g k) = s := by
  intro s g k hne
  show (match s.sound with
    | some h => if h.gen = g then applyCb s k else s
    | none => s) = s
  cases hs : s.sound with
  | none => rfl
  | some h =>
    rw [hs] at hne
    simp only [Option.map_some'] at hne
    have hgen : h.gen ≠ g := fun he => hne (congrArg some he)
    simp only [if_neg hgen]

/-- C8 witness: after selecting stA (handle generation 0) and then stC
(handle generation 1), a late onload callback of generation 0 does not
change the state. -/
theorem stale_callback_ignored_witness :
    (step (step initState (.select (some stA)))
        (.select (some stC))).sound.map Handle.gen ≠ some 0 ∧
      step (step (step initState (.select (some stA))) (.select (some stC)))
        (.cb 0 .onload) =
        step (step initState (.select (some stA))) (.select (some stC)) :=
  ⟨by decide, stale_callback_ignored _ 0 .onload (by decide)⟩

lemma runStationEffect_create (s : PlayerState) (h : Handle)
    (B : RadioStation) (hs : s.sound = some h) (hB : B.url ≠ "") :
    runStationEffect s (some B) =
      { s with station := some B, error := none, isPlaying := false,
               isLoading := true,
               sound := some ⟨s.nextGen, B.url, s.volume⟩,
               nextGen := s.nextGen + 1,
               trace := s.trace ++ [EngineAction.unload h.gen,
                 EngineAction.create s.nextGen B.url s.volume,
                 EngineAction.play s.nextGen] } := by
  unfold runStationEffect
  rw [hs]
  simp [hB, List.append_assoc]

lemma runStationEffect_create_fresh (s : PlayerState) (B : RadioStation)
    (hs : s.sound = none) (hB : B.url ≠ "") :
    runStationEffect s (some B) =
      { s with station := some B, error := none, isPlaying := false,
               isLoading := true,
               sound := some ⟨s.nextGen, B.url, s.volume⟩,
               nextGen := s.nextGen + 1,
               trace := s.trace ++ [EngineAction.create s.nextGen B.url
                 s.volume, EngineAction.play s.nextGen] } := by
  unfold runStationEffect
  rw [hs]
  simp [hB]

lemma runStationEffect_empty (s : PlayerState) (h : Handle)
    (B : RadioStation) (hs : s.sound = some h) (hB : B.url = "") :
    runStationEffect s (some B) =
      { s with station := some B, error := none, isPlaying := false,
               sound := none,
               trace := s.trace ++ [EngineAction.unload h.gen] } := by
  unfold runStationEffect
  rw [hs]
  simp [hB]

lemma runStationEffect_empty_fresh (s : PlayerState) (B : RadioStation)
    (hs : s.sound = none) (hB : B.url = "") :
    runStationEffect s (some B) =
      { s with station := some B, error := none, isPlaying := false } := by
  unfold runStationEffect
  simp [hs, hB]

lemma runStationEffect_none (s : PlayerState) (h : Handle)
    (hs : s.sound = some h) :
    runStationEffect s none =
      { s with station := none, error := none, isPlaying := false,
               sound := none,
               trace := s.trace ++ [EngineAction.unload h.gen] } := by
  unfold runStationEffect
  rw [hs]

lemma runStationEffect_none_fresh (s : PlayerState) (hs : s.sound = none) :
    runStationEffect s none =
      { s with station := none, error := none, isPlaying := false } := by
  unfold runStationEffect
  simp [hs]

lemma step_select (s : PlayerState) (ns : Option RadioStation)
    (hne : (ns.map fun st => st.url) ≠ (s.station.map fun st => st.url)) :
    step s (.select ns) = runStationEffect s ns := by
  show (if (ns.map fun st => st.url) = (s.station.map fun st => st.url)
      then { s with station := ns } else runStationEffect s ns) = _
  rw [if_neg hne]

lemma step_setVol (s : PlayerState) (h : Handle) (v : ℚ)
    (hs : s.sound = some h) :
    step s (.setVol v) =
      { s with volume := v, sound := some { h with volume := v },
               trace := s.trace ++ [EngineAction.setVolume h.gen v] } := by
  show (match ({ s with volume := v } : PlayerState).sound with
    | some h0 =>
        { s with volume := v, sound := some { h0 with volume := v },
                 trace := s.trace ++ [EngineAction.setVolume h0.gen v] }
    | none => { s with volume := v }) = _
  rw [show ({ s with volume := v } : PlayerState).sound = some h from hs]

/-- C9: setting the volume updates the retained volume state and is
applied immediately to the existing engine handle, whatever the playback,
loading or error state; and a subsequent switch to a station with a
different, nonempty stream url creates the new handle at that volume. -/
theorem volume_applied_and_persisted :
    ∀ (s : PlayerState) (h : Handle) (v : ℚ) (B : RadioStation),
      s.sound = some h →
      (step s (.setVol v)).volume = v ∧
        (step s (.setVol v)).sound = some { h with volume := v } ∧
        ((some B.url ≠ (s.station.map fun st => st.url)) → B.url ≠ "" →
          (step (step s (.setVol v)) (.select (some B))).sound =
            some ⟨s.nextGen, B.url, v⟩) := by
  intro s h v B hs
  have hv := step_setVol s h v hs
  refine ⟨by rw [hv], by rw [hv], ?_⟩
  intro hurl hBurl
  have hstation : (step s (.setVol v)).station = s.station := by rw [hv]
  have hsound : (step s (.setVol v)).sound = some { h with volume := v } := by
    rw [hv]
  have hgen : (step s (.setVol v)).nextGen = s.nextGen := by rw [hv]
  have hvol : (step s (.setVol v)).volume = v := by rw [hv]
  have hne : ((some B).map fun st => st.url) ≠
      ((step s (.setVol v)).station.map fun st => st.url) := by
    rw [hstation]
    exact hurl
  rw [step_select _ (some B) hne, runStationEffect_create _
    { h with volume := v } B hsound hBurl]
  simp only [hgen, hvol]

/-- C9 witness: set volume 0.3 while stA's handle is live, then switch to
stC; the new handle starts at volume 0.3. -/
theorem volume_applied_and_persisted_witness :
    (step (step initState (.select (some stA)))
        (.setVol (3 / 10))).volume = 3 / 10 ∧
      (step (step initState (.select (some stA)))
          (.setVol (3 / 10))).sound =
        some ⟨0, "stream", 3 / 10⟩ ∧
      (step (step (step initState (.select (some stA))) (.setVol (3 / 10)))
          (.select (some stC))).sound =
        some ⟨1, "stream2", 3 / 10⟩ := by
  have h := volume_applied_and_persisted (step initState (.select (some stA)))
    ⟨0, "stream", 3 / 4⟩ (3 / 10) stC rfl
  exact ⟨h.1, h.2.1, h.2.2 (by decide) (by decide)⟩

/-- C3 counterexample: stB is a station distinct from stA with the same
stream url; selecting stB after stA releases nothing and creates nothing —
the live handle is still the one created for stA — because recreation is
keyed on station?.url, not on station identity. -/
theorem same_url_switch_no_release :
    stA ≠ stB ∧ stA.url = stB.url ∧
      (step (step initState (.select (some stA)))
          (.select (some stB))).station = some stB ∧
      (step (step initState (.select (some stA)))
          (.select (some stB))).trace =
        [EngineAction.create 0 "stream" (3 / 4), EngineAction.play 0] ∧
      (step (step initState (.select (some stA)))
          (.select (some stB))).sound = some ⟨0, "stream", 3 / 4⟩ :=
  ⟨by decide, rfl, rfl, rfl, rfl⟩

lemma liveHandles_append (t l : List EngineAction) :
    liveHandles (t ++ l) = l.foldl liveStep (liveHandles t) := by
  unfold liveHandles
  rw [List.foldl_append]

lemma step_unmount_some (s : PlayerState) (h : Handle)
    (hs : s.sound = some h) :
    step s .unmount =
      { s with sound := none,
               trace := s.trace ++ [EngineAction.unload h.gen] } := by
  show (match s.sound with
    | some h0 =>
        { s with sound := none,
                 trace := s.trace ++ [EngineAction.unload h0.gen] }
    | none => s) = _
  rw [hs]

lemma step_unmount_none (s : PlayerState) (hs : s.sound = none) :
    step s .unmount = s := by
  show (match s.sound with
    | some h0 =>
        { s with sound := none,
                 trace := s.trace ++ [EngineAction.unload h0.gen] }
    | none => s) = _
  rw [hs]

lemma step_setVol_none (s : PlayerState) (v : ℚ) (hs : s.sound = none) :
    step s (.setVol v) = { s with volume := v } := by
  show (match ({ s with volume := v } : PlayerState).sound with
    | some h0 =>
        { s with volume := v, sound := some { h0 with volume := v },
                 trace := s.trace ++ [EngineAction.setVolume h0.gen v] }
    | none => { s with volume := v }) = _
  rw [show ({ s with volume := v } : PlayerState).sound = none from hs]

lemma sessionInv_init : SessionInv initState := by
  constructor
  · rfl
  · intro h hh
    cases hh

lemma sessionInv_step (s : PlayerState) (e : Event) (hinv : SessionInv s) :
    SessionInv (step s e) := by
  obtain ⟨h1, h2⟩ := hinv
  cases e with
  | select ns =>
    by_cases hcond :
        (ns.map fun st => st.url) = (s.station.map fun st => st.url)
    · have hstep : step s (.select ns) = { s with station := ns } := by
        show (if (ns.map fun st => st.url) =
            (s.station.map fun st => st.url)
          then { s with station := ns } else runStationEffect s ns) = _
        rw [if_pos hcond]
      rw [hstep]
      refine ⟨h1, ?_⟩
      intro h hh
      have hb := h2 h hh
      exact ⟨hcond.trans hb.1, hb.2⟩
    · rw [step_select s ns hcond]
      cases ns with
      | none =>
        cases hs : s.sound with
        | some h0 =>
          rw [runStationEffect_none s h0 hs]
          constructor
          · show liveHandles (s.trace ++ [EngineAction.unload h0.gen]) =
              ((none : Option Handle).map Handle.gen).toList
            rw [liveHandles_append, h1, hs]
            simp [liveStep]
          · intro h hh
            cases hh
        | none =>
          rw [runStationEffect_none_fresh s hs]
          refine ⟨h1, ?_⟩
          intro h hh
          have hh2 : s.sound = some h := hh
          rw [hs] at hh2
          cases hh2
      | some B =>
        by_cases hB : B.url = ""
        · cases hs : s.sound with
          | some h0 =>
            rw [runStationEffect_empty s h0 B hs hB]
            constructor
            · show liveHandles (s.trace ++ [EngineAction.unload h0.gen]) =
                ((none : Option Handle).map Handle.gen).toList
              rw [liveHandles_append, h1, hs]
              simp [liveStep]
            · intro h hh
              cases hh
          | none =>
            rw [runStationEffect_empty_fresh s B hs hB]
            refine ⟨h1, ?_⟩
            intro h hh
            have hh2 : s.sound = some h := hh
            rw [hs] at hh2
            cases hh2
        · cases hs : s.sound with
          | some h0 =>
            rw [runStationEffect_create s h0 B hs hB]
            constructor
            · show liveHandles (s.trace ++ [EngineAction.unload h0.gen,
                  EngineAction.create s.nextGen B.url s.volume,
                  EngineAction.play s.nextGen]) =
                ((some (⟨s.nextGen, B.url, s.volume⟩ : Handle)).map
                  Handle.gen).toList
              rw [liveHandles_append, h1, hs]
              simp [liveStep]
            · intro h hh
              have hh2 := Option.some.inj hh
              subst hh2
              exact ⟨rfl, hB⟩
          | none =>
            rw [runStationEffect_create_fresh s B hs hB]
            constructor
            · show liveHandles (s.trace ++
                  [EngineAction.create s.nextGen B.url s.volume,
                   EngineAction.play s.nextGen]) =
                ((some (⟨s.nextGen, B.url, s.volume⟩ : Handle)).map
                  Handle.gen).toList
              rw [liveHandles_append, h1, hs]
              simp [liveStep]
            · intro h hh
              have hh2 := Option.some.inj hh
              subst hh2
              exact ⟨rfl, hB⟩
  | unmount =>
    cases hs : s.sound with
    | some h0 =>
      rw [step_unmount_some s h0 hs]
      constructor
      · show liveHandles (s.trace ++ [EngineAction.unload h0.gen]) =
          ((none : Option Handle).map Handle.gen).toList
        rw [liveHandles_append, h1, hs]
        simp [liveStep]
      · intro h hh
        cases hh
    | none =>
      rw [step_unmount_none s hs]
      exact ⟨h1, h2⟩
  | setVol v =>
    cases hs : s.sound with
    | some h0 =>
      rw [step_setVol s h0 v hs]
      constructor
      · show liveHandles (s.trace ++ [EngineAction.setVolume h0.gen v]) =
          ((some { h0 with volume := v }).map Handle.gen).toList
        rw [liveHandles_append, h1, hs]
        simp [liveStep]
      · intro h hh
        have hh2 := Option.some.inj hh
        subst hh2
        have hb := h2 h0 hs
        exact ⟨hb.1, hb.2⟩
    | none =>
      rw [step_setVol_none s v hs]
      refine ⟨h1, ?_⟩
      intro h hh
      have hh2 : s.sound = some h := hh
      rw [hs] at hh2
      cases hh2
  | toggle =>
    cases hs : s.sound with
    | some h0 =>
      by_cases hp : s.isPlaying = true
      · have hstep : step s .toggle =
            { s with isPlaying := false,
                     trace := s.trace ++ [EngineAction.pause h0.gen] } := by
          show (match s.sound with
            | none => s
            | some h =>
                if s.isPlaying then
                  { s with isPlaying := false,
                           trace := s.trace ++ [EngineAction.pause h.gen] }
                else
                  { s with isPlaying := true,
                           trace := s.trace ++ [EngineAction.play h.gen] })
            = _
          rw [hs]
          simp [hp]
        rw [hstep]
        constructor
        · show liveHandles (s.trace ++ [EngineAction.pause h0.gen]) =
            (s.sound.map Handle.gen).toList
          rw [liveHandles_append, h1]
          simp [liveStep]
        · intro h hh
          exact h2 h hh
      · have hstep : step s .toggle =
            { s with isPlaying := true,
                     trace := s.trace ++ [EngineAction.play h0.gen] } := by
          show (match s.sound with
            | none => s
            | some h =>
                if s.isPlaying then
                  { s with isPlaying := false,
                           trace := s.trace ++ [EngineAction.pause h.gen] }
                else
                  { s with isPlaying := true,
                           trace := s.trace ++ [EngineAction.play h.gen] })
            = _
          rw [hs]
          simp [hp]
        rw [hstep]
        constructor
        · show liveHandles (s.trace ++ [EngineAction.play h0.gen]) =
            (s.sound.map Handle.gen).toList
          rw [liveHandles_append, h1]
          simp [liveStep]
        · intro h hh
          exact h2 h hh
    | none =>
      have hstep : step s .toggle = s := by
        show (match s.sound with
          | none => s
          | some h =>
              if s.isPlaying then
                { s with isPlaying := false,
                         trace := s.trace ++ [EngineAction.pause h.gen] }
              else
                { s with isPlaying := true,
                         trace := s.trace ++ [EngineAction.play h.gen] }) = _
        rw [hs]
      rw [hstep]
      exact ⟨h1, h2⟩
  | cb g k =>
    cases hs : s.sound with
    | some h0 =>
      by_cases hg : h0.gen = g
      · have hstep : step s (.cb g k) = applyCb s k := by
          show (match s.sound with
            | some h => if h.gen = g then applyCb s k else s
            | none => s) = _
          rw [hs]
          simp [hg]
        rw [hstep]
        cases k <;> exact ⟨h1, fun h hh => h2 h hh⟩
      · have hstep : step s (.cb g k) = s := by
          show (match s.sound with
            | some h => if h.gen = g then applyCb s k else s
            | none => s) = _
          rw [hs]
          simp [hg]
        rw [hstep]
        exact ⟨h1, h2⟩
    | none =>
      have hstep : step s (.cb g k) = s := by
        show (match s.sound with
          | some h => if h.gen = g then applyCb s k else s
          | none => s) = _
        rw [hs]
      rw [hstep]
      exact ⟨h1, h2⟩

/-- C3 (amended): the controller owns at most one live engine handle at
all times; whenever the selected station changes to a station whose
stream url differs from the current selection's (and is nonempty), the
previous handle is released strictly before the new handle is created and
the reported station becomes the new station; changing the selection to
null, or unmounting, likewise unconditionally releases the handle.
Recreation is keyed on the stream url, so a change to a different station
with an identical url performs no teardown (see the counterexample). -/
theorem audio_session_exclusivity :
    SessionInv initState ∧
      (∀ (s : PlayerState) (e : Event),
        SessionInv s → SessionInv (step s e)) ∧
      (∀ s : PlayerState, SessionInv s → (liveHandles s.trace).length ≤ 1) ∧
      (∀ (s : PlayerState) (B : RadioStation) (h : Handle),
        s.sound = some h →
        (some B.url ≠ (s.station.map fun st => st.url)) → B.url ≠ "" →
        (step s (.select (some B))).station = some B ∧
          (step s (.select (some B))).trace =
            s.trace ++ [EngineAction.unload h.gen,
              EngineAction.create s.nextGen B.url s.volume,
              EngineAction.play s.nextGen] ∧
          (step s (.select (some B))).sound =
            some ⟨s.nextGen, B.url, s.volume⟩) ∧
      (∀ (s : PlayerState) (h : Handle), SessionInv s → s.sound = some h →
        (step s (.select none)).sound = none ∧
          (step s (.select none)).trace =
            s.trace ++ [EngineAction.unload h.gen] ∧
          (step s (.select none)).station = none) ∧
      (∀ (s : PlayerState) (h : Handle), s.sound = some h →
        (step s .unmount).sound = none ∧
          (step s .unmount).trace =
            s.trace ++ [EngineAction.unload h.gen]) := by
  refine ⟨sessionInv_init, sessionInv_step, ?_, ?_, ?_, ?_⟩
  · intro s hinv
    rw [hinv.1]
    cases s.sound <;> simp
  · intro s B h hs hurl hBurl
    have hne : ((some B).map fun st => st.url) ≠
        (s.station.map fun st => st.url) := hurl
    rw [step_select s (some B) hne, runStationEffect_create s h B hs hBurl]
    exact ⟨rfl, rfl, rfl⟩
  · intro s h hinv hs
    have hb := hinv.2 h hs
    have hne : ((none : Option RadioStation).map fun st => st.url) ≠
        (s.station.map fun st => st.url) := by
      rw [hb.1]
      simp
    rw [step_select s none hne, runStationEffect_none s h hs]
    exact ⟨rfl, rfl, rfl⟩
  · intro s h hs
    rw [step_unmount_some s h hs]
    exact ⟨rfl, rfl⟩

/-- C3 witness: switching from stA to stC (a different, nonempty stream
url) releases handle 0 before creating handle 1 and reports stC as the
current station. -/
theorem audio_session_exclusivity_witness :
    (step (step initState (.select (some stA)))
        (.select (some stC))).station = some stC ∧
      (step (step initState (.select (some stA)))
          (.select (some stC))).trace =
        (step initState (.select (some stA))).trace ++
          [EngineAction.unload 0, EngineAction.create 1 "stream2" (3 / 4),
           EngineAction.play 1] ∧
      (step (step initState (.select (some stA)))
          (.select (some stC))).sound = some ⟨1, "stream2", 3 / 4⟩ :=
  audio_session_exclusivity.2.2.2.1 (step initState (.select (some stA)))
    stC ⟨0, "stream", 3 / 4⟩ rfl (by decide) (by decide)
